import Mathlib

/-!
Verification of `watermark_tool.py`: a shallow embedding in Lean 4 of the
tool's pure logic (position calculator, EXIF date extraction, watermark
renderer control flow, directory batch driver, CLI entry) together with
theorems settling the specification's claims.

Modelling conventions:
* Python unbounded `int` is `Int`; Python `//` (floor division) is `Int.fdiv`.
* Python strings are Lean `String`; `str.replace(':', '-', 2)` is modelled
  on the character list.
* Filesystem interaction is abstracted: a directory is a listing of entries
  (name plus whether it is a subdirectory); an image file is the data the
  tool can observe about it (readability, EXIF contents, dimensions);
  exceptions are `Except`, and a caught exception is a `.failed` outcome.
-/

namespace WatermarkTool

/-! ## Position calculator (`get_position_coordinates`, lines 32-47) -/

/-- Embedding of `get_position_coordinates(img_width, img_height, text_width,
text_height, position)`.  `margin = 20`; five keyword branches and a
default branch returning the top-left margin position.  Python `//` is
floor division, hence `Int.fdiv` in the `center` branch. -/
def get_position_coordinates (img_width img_height text_width text_height : Int)
    (position : String) : Int × Int :=
  let margin : Int := 20
  if position = "top-left" then (margin, margin)
  else if position = "top-right" then (img_width - text_width - margin, margin)
  else if position = "bottom-left" then (margin, img_height - text_height - margin)
  else if position = "bottom-right" then
    (img_width - text_width - margin, img_height - text_height - margin)
  else if position = "center" then
    (Int.fdiv (img_width - text_width) 2, Int.fdiv (img_height - text_height) 2)
  else (margin, margin)

/-- The five recognized position keywords. -/
def positionKeywords : List String :=
  ["top-left", "top-right", "bottom-left", "bottom-right", "center"]


/-! ## EXIF date extraction (`get_exif_datetime`, lines 15-30) -/

/-- `value.replace(':', '-', n)` on the character list: replace the first
`n` occurrences of ':' by '-'. -/
def pyReplaceColon : List Char → Nat → List Char
  | [], _ => []
  | cs, 0 => cs
  | c :: cs, n + 1 =>
    if c = ':' then '-' :: pyReplaceColon cs n else c :: pyReplaceColon cs (n + 1)

/-- The decimal digit character for k < 10 (codepoint 48 + k). -/
def digitChar (k : Nat) : Char := Char.ofNat (48 + k)

/-- Numeric value of a decimal digit character. -/
def digVal (c : Char) : Nat := c.toNat - 48

/-- Zero-padded two-digit decimal rendering, as produced by the `strftime`
directives `%m`, `%d`, `%H`, `%M`, `%S` for their whole value ranges. -/
def pad2 (n : Nat) : List Char := [digitChar (n / 10 % 10), digitChar (n % 10)]

/-- Four-digit decimal rendering; agrees with `%Y` for 1000 ≤ year ≤ 9999
(the `YYYY` range the tool's DateTime values carry). -/
def pad4 (n : Nat) : List Char :=
  [digitChar (n / 1000 % 10), digitChar (n / 100 % 10),
   digitChar (n / 10 % 10), digitChar (n % 10)]

/-- Take up to `width` leading decimal digits: the `strptime` digit groups
(`\d{1,width}`), matched greedily in front of a non-digit separator. -/
def takeDigits : Nat → List Char → List Char × List Char
  | 0, cs => ([], cs)
  | _ + 1, [] => ([], [])
  | n + 1, c :: cs =>
    if c.isDigit then
      let p := takeDigits n cs
      (c :: p.1, p.2)
    else ([], c :: cs)

/-- Decimal value of a digit run. -/
def digitsVal (ds : List Char) : Nat := ds.foldl (fun acc c => acc * 10 + digVal c) 0

/-- One numeric `strptime` field of maximal width `width`: at least one
digit must be present. -/
def parseField (width : Nat) (cs : List Char) : Option (Nat × List Char) :=
  let p := takeDigits width cs
  if p.1.isEmpty then none else some (digitsVal p.1, p.2)

/-- A literal separator character in the `strptime` format. -/
def expectChar (c : Char) : List Char → Option (List Char)
  | [] => none
  | c2 :: cs => if c2 = c then some cs else none

/-- Gregorian leap-year rule used by `datetime` date validation. -/
def isLeapYear (y : Nat) : Bool := (y % 4 = 0 && y % 100 ≠ 0) || y % 400 = 0

/-- Number of days in a month, as validated by the `datetime` constructor. -/
def daysInMonth (y m : Nat) : Nat :=
  if m = 2 then (if isLeapYear y then 29 else 28)
  else if m = 4 || m = 6 || m = 9 || m = 11 then 30
  else 31

/-- The range checks enforced by `datetime.strptime` (format regex plus the
`datetime` constructor): outside them it raises `ValueError`. -/
def datetimeValid (y m d h mi s : Nat) : Bool :=
  1 ≤ y && y ≤ 9999 && 1 ≤ m && m ≤ 12 && 1 ≤ d && d ≤ daysInMonth y m &&
  h ≤ 23 && mi ≤ 59 && s ≤ 59

/-- `datetime.strptime(s, '%Y-%m-%d %H:%M:%S')` as an `Option`: `none`
models the `ValueError` raised on a string that does not match the format
completely or encodes an invalid date/time. -/
def strptime_YmdHMS (cs : List Char) : Option (Nat × Nat × Nat × Nat × Nat × Nat) := do
  let (y, cs) ← parseField 4 cs
  let cs ← expectChar '-' cs
  let (m, cs) ← parseField 2 cs
  let cs ← expectChar '-' cs
  let (d, cs) ← parseField 2 cs
  let cs ← expectChar ' ' cs
  let (h, cs) ← parseField 2 cs
  let cs ← expectChar ':' cs
  let (mi, cs) ← parseField 2 cs
  let cs ← expectChar ':' cs
  let (s, cs) ← parseField 2 cs
  if cs.isEmpty && datetimeValid y m d h mi s then some (y, m, d, h, mi, s) else none

/-- `dt_obj.strftime('%Y-%m-%d')`, the date part only (exact for years
1000-9999). -/
def strftime_Ymd (y m d : Nat) : String :=
  String.mk (pad4 y ++ '-' :: pad2 m ++ '-' :: pad2 d)

/-- What `Image.open(path)` followed by `_getexif()` can yield for a file:
opening or reading raises (`unreadable`), the EXIF dict is falsy —
`None` or `{}` — (`noExif`), or it is a dict of numeric tag ids to values
in iteration (insertion) order.  Values are modelled as strings, which is
what the DateTime tag carries. -/
inductive ExifRead where
  | unreadable : ExifRead
  | noExif : ExifRead
  | exif (entries : List (Nat × String)) : ExifRead

/-- `ExifTags.TAGS` maps tag id 306 to the name 'DateTime'; no other id
maps to that name, and an id absent from the table falls back to the
integer itself, which never equals the string 'DateTime'.  Hence the loop
test `tag == 'DateTime'` holds exactly for tag id 306. -/
def DateTimeTagId : Nat := 306

/-- The `for tag_id, value in exif_data.items()` loop: the function returns
inside the loop on the first DateTime entry. -/
def findDateTime : List (Nat × String) → Option String
  | [] => none
  | (tag, v) :: rest => if tag = DateTimeTagId then some v else findDateTime rest

/-- Observable result of `get_exif_datetime`: the returned value (`none`
models Python `None`) and whether the warning line was printed. -/
structure ExtractResult where
  result : Option String
  warned : Bool
  deriving DecidableEq

/-- Embedding of `get_exif_datetime(image_path)` over what can be observed
of the file.  Any exception inside the `try` block — the file is
unreadable, or `strptime` raises `ValueError` on a malformed DateTime
value — is caught and prints a warning; every path returns `None` except a
successfully parsed DateTime value, which is reformatted to its date
part. -/
def get_exif_datetime : ExifRead → ExtractResult
  | .unreadable => ⟨none, true⟩
  | .noExif => ⟨none, false⟩
  | .exif entries =>
    match findDateTime entries with
    | none => ⟨none, false⟩
    | some v =>
      match strptime_YmdHMS (pyReplaceColon v.data 2) with
      | none => ⟨none, true⟩
      | some (y, m, d, _, _, _) => ⟨some (strftime_Ymd y m d), false⟩

/-- An EXIF DateTime value in the canonical camera format
`YYYY:MM:DD HH:MM:SS`. -/
def formatExifDateTime (y m d h mi s : Nat) : String :=
  String.mk (pad4 y ++ (':' :: (pad2 m ++ (':' :: (pad2 d ++ (' ' :: (pad2 h ++
    (':' :: (pad2 mi ++ (':' :: pad2 s))))))))))


/-! ## Watermark renderer (`add_watermark`, lines 49-94) -/

/-- `watermark_text = get_exif_datetime(...)` followed by the falsy test
`if not watermark_text`: Python `None` and the empty string are falsy and
are replaced by the fallback literal. -/
def watermarkText (r : Option String) : String :=
  match r with
  | none => "No-Date"
  | some t => if t = "" then "No-Date" else t

/-- What the renderer can observe of a source image file: the EXIF data
seen by `get_exif_datetime` (which opens the file itself and catches its
own errors), whether `Image.open` succeeds inside `add_watermark`, and the
decoded pixel dimensions. -/
structure ImageFile where
  exif : ExifRead
  readable : Bool
  width : Int
  height : Int

/-- Ambient rendering facts: the `draw.textbbox` measurement
`(text_width, text_height)` of a string at a font size — the font fallback
chain `arial.ttf` → `DejaVuSans.ttf` → `ImageFont.load_default()` always
ends in a usable font, so font selection itself cannot fail — and whether
`img.save(output_path, quality=95)` succeeds. -/
structure RenderEnv where
  textSize : String → Int → Int × Int
  saveOk : Bool

/-- Outcome of `add_watermark`: the image was drawn (shadow text at
(x+2, y+2) in the contrasting color, main text at (x, y)) and saved — the
`Success` line — or some step raised and the `except Exception` handler
caught and logged it — the `Error processing` line.  No exception escapes
to the caller in either case. -/
inductive RenderOutcome where
  | saved (text : String) (pos : Int × Int)
  | failed
  deriving DecidableEq

/-- `shadow_color = 'black' if color == 'white' else 'white'`. -/
def shadowColor (color : String) : String :=
  if color = "white" then "black" else "white"

/-- The body of the `try` block in `add_watermark`: each step that can
raise becomes an `Except.error`.  The watermark text is determined first
(with fallback), then the image is opened, converted to RGB, measured,
positioned, drawn and saved. -/
def add_watermark_body (img : ImageFile) (env : RenderEnv) (font_size : Int)
    (position : String) : Except String (String × Int × Int) :=
  let watermark_text := watermarkText (get_exif_datetime img.exif).result
  if !img.readable then .error "cannot identify image file"
  else
    let p := env.textSize watermark_text font_size
    let xy := get_position_coordinates img.width img.height p.1 p.2 position
    if !env.saveOk then .error "save failed"
    else .ok (watermark_text, xy.1, xy.2)

/-- Embedding of `add_watermark(image_path, output_path, font_size, color,
position)`: the `except Exception` handler turns any raised error into a
logged `.failed` outcome instead of propagating it. -/
def add_watermark (img : ImageFile) (env : RenderEnv) (font_size : Int)
    (color position : String) : RenderOutcome :=
  match add_watermark_body img env font_size position with
  | .ok (t, x, y) => .saved t (x, y)
  | .error _ => .failed

/-! ## Directory batch driver (`process_directory`, lines 96-124) -/

/-- A directory entry as `glob` and `os.path.isfile` see it: its basename
and whether it is a subdirectory (a subdirectory can match a glob pattern
but fails the `os.path.isfile` test). -/
structure DirEntry where
  name : String
  isDir : Bool
  deriving DecidableEq

/-- `os.path.basename`: the part of the path after the last '/'. -/
def basename (p : String) : String :=
  String.mk ((p.data.reverse.takeWhile (fun c => c ≠ '/')).reverse)

/-- `os.path.join(a, b)` for the cases the tool exercises: absolute `b`
wins, a trailing '/' on `a` is not doubled, otherwise a '/' is inserted. -/
def pathJoin (a b : String) : String :=
  if b.data.head? = some '/' then b
  else if a.data = [] then b
  else if a.data.getLast? = some '/' then String.mk (a.data ++ b.data)
  else String.mk (a.data ++ '/' :: b.data)

/-- The fixed glob patterns `['*.jpg', '*.jpeg', '*.png', '*.bmp',
'*.tiff', '*.webp']`, each represented by the suffix it requires. -/
def image_extensions : List String :=
  [".jpg", ".jpeg", ".png", ".bmp", ".tiff", ".webp"]

/-- `suffix` is a suffix of `l`: the `*` of a `'*' + suffix` glob pattern
matches the (possibly empty) remainder. -/
def matchSuffix (suffix l : List Char) : Bool :=
  decide (suffix.length ≤ l.length) && l.drop (l.length - suffix.length) == suffix

/-- One entry matches `glob.glob(os.path.join(input_dir, '*' + suffix))`
followed by the `os.path.isfile` test: glob skips names whose first
character is '.', `*` matches any remainder, and `isfile` rejects
subdirectories. -/
def globMatch (suffix : String) (e : DirEntry) : Bool :=
  !e.isDir && e.name.data.head? ≠ some '.' && matchSuffix suffix.data e.name.data

/-- Helper for `os.path.splitext`: scanning the reversed characters, split
at the first '.' found, i.e. at the last dot of the name. -/
def splitAtLastDot : List Char → Option (List Char × List Char)
  | [] => none
  | c :: cs =>
    if c = '.' then some ([c], cs)
    else (splitAtLastDot cs).map (fun p => (c :: p.1, p.2))

/-- `os.path.splitext(filename)` for a basename: split before the last
dot, except that a name all of whose characters before that dot are
themselves dots (such as `.bashrc`) does not split. -/
def splitext (filename : String) : String × String :=
  match splitAtLastDot filename.data.reverse with
  | some (revExt, revStem) =>
    if revStem.all (fun c => c = '.') then (filename, "")
    else (String.mk revStem.reverse, String.mk revExt.reverse)
  | none => (filename, "")

/-- `output_filename = f"{name}_watermarked{ext}"`. -/
def output_filename (filename : String) : String :=
  let p := splitext filename
  p.1 ++ "_watermarked" ++ p.2

/-- One processed file: source path, destination path, render outcome. -/
structure Job where
  src : String
  dst : String
  outcome : RenderOutcome
  deriving DecidableEq

/-- Result of one `process_directory` run: the output directory created by
`os.makedirs(..., exist_ok=True)` (which runs before any enumeration and
touches nothing else), the per-file jobs in processing order, the final
count, and the summary line printed. -/
structure BatchResult where
  output_dir : String
  jobs : List Job
  processed_count : Nat
  message : String
  deriving DecidableEq

/-- Embedding of `process_directory(input_dir, font_size, color,
position)`.  `listing` holds the directory's entries in enumeration order;
`world` gives the observable image data behind each source path and `renv`
its rendering environment.  The outer loop runs over the six extension
patterns, the inner loop over the matching entries. -/
def process_directory (input_dir : String) (listing : List DirEntry)
    (world : String → ImageFile) (renv : String → RenderEnv)
    (font_size : Int) (color position : String) : BatchResult :=
  let output_dir := pathJoin input_dir (basename input_dir ++ "_watermark")
  let jobs := image_extensions.flatMap (fun ext =>
    (listing.filter (globMatch ext)).map (fun e =>
      let image_path := pathJoin input_dir e.name
      let output_path := pathJoin output_dir (output_filename e.name)
      ⟨image_path, output_path,
        add_watermark (world image_path) (renv image_path) font_size color position⟩))
  { output_dir := output_dir
    jobs := jobs
    processed_count := jobs.length
    message :=
      if jobs.length = 0 then "No image files found in the specified directory."
      else "\nProcessed " ++ toString jobs.length ++ " images. Output saved to: " ++
        output_dir }

/-- The destination paths actually written: a `.failed` render writes no
file. -/
def writtenFiles (r : BatchResult) : List String :=
  r.jobs.filterMap (fun j => match j.outcome with
    | .saved _ _ => some j.dst
    | .failed => none)

/-! ## CLI entry (`main`, lines 126-147) -/

/-- Result of `main()` after argument parsing: either `sys.exit(1)` right
after the error line — no directory is created and no file is read or
written, since `process_directory` is never reached — or a completed
batch run. -/
inductive MainResult where
  | exited (code : Nat) (msg : String)
  | ran (r : BatchResult)
  deriving DecidableEq

/-- Embedding of `main()` after `argparse` has accepted the arguments:
`isdir` is the value of `os.path.isdir(args.input_dir)`. -/
def main (input_dir : String) (isdir : Bool) (listing : List DirEntry)
    (world : String → ImageFile) (renv : String → RenderEnv)
    (font_size : Int) (color position : String) : MainResult :=
  if !isdir then
    .exited 1 ("Error: Directory \x27" ++ input_dir ++ "\x27 does not exist.")
  else
    .ran (process_directory input_dir listing world renv font_size color position)


/-- A directory with exactly 3 qualifying images and 2 non-image files. -/
def demoListing3 : List DirEntry :=
  [⟨"a.jpg", false⟩, ⟨"notes.txt", false⟩, ⟨"b.png", false⟩,
   ⟨"readme.md", false⟩, ⟨"c.jpeg", false⟩]

/-- A directory with no qualifying images. -/
def demoListing0 : List DirEntry :=
  [⟨"notes.txt", false⟩, ⟨"readme.md", false⟩]

/-- Every file is readable, EXIF-less, 800×600, and saves fine. -/
def demoWorld : String → ImageFile := fun _ => ⟨.noExif, true, 800, 600⟩

/-- Fixed text measurement, saving succeeds. -/
def demoEnv : String → RenderEnv := fun _ => ⟨fun _ _ => (100, 20), true⟩

/-- Two qualifying files, the second of which cannot be opened by the
renderer. -/
def demoListing2 : List DirEntry := [⟨"a.jpg", false⟩, ⟨"b.jpg", false⟩]

/-- `b.jpg` is unreadable; everything else renders fine. -/
def demoWorldOneBad : String → ImageFile := fun p =>
  if p = "/photos/b.jpg" then ⟨.noExif, false, 800, 600⟩
  else ⟨.noExif, true, 800, 600⟩

/-! ## Theorems for C1 and C10 -/

/-- C1: for every image width W, height H, text width tw, text height th,
the position calculator returns exactly the documented margin-relative
coordinates with a fixed margin of 20 pixels: `top-left` gives (20, 20),
`top-right` gives (W - tw - 20, 20), `bottom-left` gives (20, H - th - 20),
`bottom-right` gives (W - tw - 20, H - th - 20), `center` gives
((W - tw) // 2, (H - th) // 2), and every keyword outside these five falls
back to the top-left margin position (20, 20). -/
theorem position_coordinates_match_documented_formula (W H tw th : Int) :
    get_position_coordinates W H tw th "top-left" = (20, 20) ∧
    get_position_coordinates W H tw th "top-right" = (W - tw - 20, 20) ∧
    get_position_coordinates W H tw th "bottom-left" = (20, H - th - 20) ∧
    get_position_coordinates W H tw th "bottom-right" = (W - tw - 20, H - th - 20) ∧
    get_position_coordinates W H tw th "center" =
      (Int.fdiv (W - tw) 2, Int.fdiv (H - th) 2) ∧
    ∀ pos : String, pos ∉ positionKeywords →
      get_position_coordinates W H tw th pos = (20, 20) := by
  refine ⟨by simp [get_position_coordinates], by simp [get_position_coordinates],
    by simp [get_position_coordinates], by simp [get_position_coordinates],
    by simp [get_position_coordinates], ?_⟩
  intro pos hpos
  simp only [positionKeywords, List.mem_cons, List.not_mem_nil, or_false, not_or] at hpos
  obtain ⟨h1, h2, h3, h4, h5⟩ := hpos
  simp [get_position_coordinates, h1, h2, h3, h4, h5]

/-- Witness for C1: the fallback branch at the concrete unknown keyword
`"middle"`. -/
theorem position_coordinates_match_documented_formula_witness :
    get_position_coordinates 800 600 120 40 "middle" = (20, 20) :=
  (position_coordinates_match_documented_formula 800 600 120 40).2.2.2.2.2
    "middle" (by decide)

/-- C10 counterexample: as stated, the claim asserts that for EVERY position
string, text_width + 20 > img_width forces a negative x coordinate.  At
position `"top-left"` with W = 100, tw = 90 (90 + 20 > 100) the calculator
returns x = 20, which is not negative. -/
theorem position_not_clamped_counterexample :
    (90 : Int) + 20 > 100 ∧
    (get_position_coordinates 100 80 90 10 "top-left").1 = 20 ∧
    ¬ (get_position_coordinates 100 80 90 10 "top-left").1 < 0 := by
  refine ⟨by decide, ?_, ?_⟩ <;> simp [get_position_coordinates]

/-- C10 amended: the position calculator is total — every integer input
and every position string yields a coordinate pair, unconditionally — and
the result is not clamped to the image bounds, each axis independently:
whenever tw + 20 > W the x coordinate W - tw - 20 of the right-anchored
keywords (`top-right`, `bottom-right`) is negative, and whenever
th + 20 > H the y coordinate H - th - 20 of the bottom-anchored keywords
(`bottom-left`, `bottom-right`) is negative, placing the watermark partly
or wholly off-canvas. -/
theorem position_not_clamped (W H tw th : Int) :
    (∀ pos : String, ∃ p : Int × Int, get_position_coordinates W H tw th pos = p) ∧
    (tw + 20 > W →
      (get_position_coordinates W H tw th "top-right").1 < 0 ∧
      (get_position_coordinates W H tw th "bottom-right").1 < 0) ∧
    (th + 20 > H →
      (get_position_coordinates W H tw th "bottom-left").2 < 0 ∧
      (get_position_coordinates W H tw th "bottom-right").2 < 0) := by
  refine ⟨fun pos => ⟨_, rfl⟩, fun hx => ⟨?_, ?_⟩, fun hy => ⟨?_, ?_⟩⟩ <;>
    simp [get_position_coordinates] <;> omega

/-- Witness for C10 amended, one overflowing axis at a time: text too wide
(tw = 200 on a 100-wide, 600-high image with small th) makes the
right-anchored x negative, and text too tall (th = 90 on a 60-high,
800-wide image with small tw) makes the bottom-anchored y negative. -/
theorem position_not_clamped_witness :
    ((get_position_coordinates 100 600 200 10 "top-right").1 < 0 ∧
      (get_position_coordinates 100 600 200 10 "bottom-right").1 < 0) ∧
    ((get_position_coordinates 800 60 30 90 "bottom-left").2 < 0 ∧
      (get_position_coordinates 800 60 30 90 "bottom-right").2 < 0) :=
  ⟨(position_not_clamped 100 600 200 10).2.1 (by decide),
   (position_not_clamped 800 60 30 90).2.2 (by decide)⟩


/-! ### Lemmas about the digit formatting and the parser -/

lemma digitChar_spec (k : Nat) (hk : k < 10) :
    (digitChar k).isDigit = true ∧ digVal (digitChar k) = k ∧ digitChar k ≠ ':' := by
  interval_cases k <;> decide

lemma pad2_digits (n : Nat) : ∀ c ∈ pad2 n, c.isDigit = true ∧ c ≠ ':' := by
  intro c hc
  simp only [pad2, List.mem_cons, List.not_mem_nil, or_false] at hc
  rcases hc with h | h <;> subst h <;>
    exact ⟨(digitChar_spec _ (Nat.mod_lt _ (by norm_num))).1,
      (digitChar_spec _ (Nat.mod_lt _ (by norm_num))).2.2⟩

lemma pad4_digits (n : Nat) : ∀ c ∈ pad4 n, c.isDigit = true ∧ c ≠ ':' := by
  intro c hc
  simp only [pad4, List.mem_cons, List.not_mem_nil, or_false] at hc
  rcases hc with h | h | h | h <;> subst h <;>
    exact ⟨(digitChar_spec _ (Nat.mod_lt _ (by norm_num))).1,
      (digitChar_spec _ (Nat.mod_lt _ (by norm_num))).2.2⟩

lemma digitsVal_pad2 (n : Nat) (h : n ≤ 99) : digitsVal (pad2 n) = n := by
  simp only [digitsVal, pad2, List.foldl]
  rw [(digitChar_spec _ (Nat.mod_lt _ (by norm_num))).2.1,
    (digitChar_spec _ (Nat.mod_lt _ (by norm_num))).2.1]
  omega

lemma digitsVal_pad4 (n : Nat) (h : n ≤ 9999) : digitsVal (pad4 n) = n := by
  simp only [digitsVal, pad4, List.foldl]
  rw [(digitChar_spec _ (Nat.mod_lt _ (by norm_num))).2.1,
    (digitChar_spec _ (Nat.mod_lt _ (by norm_num))).2.1,
    (digitChar_spec _ (Nat.mod_lt _ (by norm_num))).2.1,
    (digitChar_spec _ (Nat.mod_lt _ (by norm_num))).2.1]
  omega

lemma pyReplaceColon_zero (cs : List Char) : pyReplaceColon cs 0 = cs := by
  cases cs <;> rfl

lemma pyReplaceColon_succ (ds rest : List Char) (n : Nat)
    (h : ∀ c ∈ ds, c ≠ ':') :
    pyReplaceColon (ds ++ ':' :: rest) (n + 1) = ds ++ '-' :: pyReplaceColon rest n := by
  induction ds with
  | nil => simp [pyReplaceColon]
  | cons c cs ih =>
    have hc : c ≠ ':' := h c (List.mem_cons_self c cs)
    simp only [List.cons_append, pyReplaceColon, if_neg hc, List.append_eq]
    rw [ih (fun x hx => h x (List.mem_cons_of_mem c hx))]

/-- The first two colons of `YYYY:MM:DD HH:MM:SS` become dashes; the digit
groups are untouched and the count is exhausted before the time colons. -/
lemma pyReplaceColon_two (ds1 ds2 rest : List Char)
    (h1 : ∀ c ∈ ds1, c ≠ ':') (h2 : ∀ c ∈ ds2, c ≠ ':') :
    pyReplaceColon (ds1 ++ (':' :: (ds2 ++ (':' :: rest)))) 2 =
      ds1 ++ ('-' :: (ds2 ++ ('-' :: rest))) := by
  have s2 : pyReplaceColon (ds2 ++ ':' :: rest) (0 + 1) =
      ds2 ++ '-' :: pyReplaceColon rest 0 := pyReplaceColon_succ ds2 rest 0 h2
  rw [pyReplaceColon_zero] at s2
  calc pyReplaceColon (ds1 ++ ':' :: (ds2 ++ ':' :: rest)) 2
      = ds1 ++ '-' :: pyReplaceColon (ds2 ++ ':' :: rest) 1 :=
        pyReplaceColon_succ ds1 _ 1 h1
    _ = ds1 ++ '-' :: (ds2 ++ '-' :: rest) := by
        rw [show pyReplaceColon (ds2 ++ ':' :: rest) 1 = ds2 ++ '-' :: rest from s2]

lemma takeDigits_exact (ds rest : List Char)
    (h : ∀ c ∈ ds, c.isDigit = true) :
    takeDigits ds.length (ds ++ rest) = (ds, rest) := by
  induction ds with
  | nil => rfl
  | cons c cs ih =>
    simp only [List.length_cons, List.cons_append, takeDigits,
      if_pos (h c (List.mem_cons_self c cs)), List.append_eq]
    rw [ih (fun x hx => h x (List.mem_cons_of_mem c hx))]

lemma parseField_exact (ds rest : List Char) (hne : ds ≠ [])
    (h : ∀ c ∈ ds, c.isDigit = true) :
    parseField ds.length (ds ++ rest) = some (digitsVal ds, rest) := by
  obtain ⟨c, cs, rfl⟩ := List.exists_cons_of_ne_nil hne
  unfold parseField
  rw [takeDigits_exact _ _ h]
  rfl

lemma parseField_pad4 (y : Nat) (hy : y ≤ 9999) (rest : List Char) :
    parseField 4 (pad4 y ++ rest) = some (y, rest) := by
  have h := parseField_exact (pad4 y) rest (by simp [pad4])
    (fun c hc => (pad4_digits y c hc).1)
  rw [digitsVal_pad4 y hy] at h
  exact h

lemma parseField_pad2 (n : Nat) (hn : n ≤ 99) (rest : List Char) :
    parseField 2 (pad2 n ++ rest) = some (n, rest) := by
  have h := parseField_exact (pad2 n) rest (by simp [pad2])
    (fun c hc => (pad2_digits n c hc).1)
  rw [digitsVal_pad2 n hn] at h
  exact h

lemma parseField_pad2_nil (n : Nat) (hn : n ≤ 99) :
    parseField 2 (pad2 n) = some (n, []) := by
  have h := parseField_pad2 n hn []
  simpa using h

lemma expectChar_self (c : Char) (rest : List Char) :
    expectChar c (c :: rest) = some rest := by
  simp [expectChar]

lemma data_mk (l : List Char) : (String.mk l).data = l := rfl

lemma strptime_format (y m d h mi s : Nat)
    (hy : y ≤ 9999) (hm : m ≤ 99) (hd : d ≤ 99) (hh : h ≤ 99)
    (hmi : mi ≤ 99) (hs : s ≤ 99)
    (hv : datetimeValid y m d h mi s = true) :
    strptime_YmdHMS (pad4 y ++ ('-' :: (pad2 m ++ ('-' :: (pad2 d ++ (' ' :: (pad2 h ++
      (':' :: (pad2 mi ++ (':' :: pad2 s)))))))))) = some (y, m, d, h, mi, s) := by
  unfold strptime_YmdHMS
  rw [parseField_pad4 y hy]
  simp only [Option.bind_eq_bind, Option.some_bind, expectChar_self,
    parseField_pad2 m hm, parseField_pad2 d hd, parseField_pad2 h hh,
    parseField_pad2 mi hmi, parseField_pad2_nil s hs]
  simp [hv]

lemma findDateTime_first (pre post : List (Nat × String)) (v : String)
    (hpre : ∀ p ∈ pre, p.1 ≠ DateTimeTagId) :
    findDateTime (pre ++ (DateTimeTagId, v) :: post) = some v := by
  induction pre with
  | nil => simp [findDateTime]
  | cons p ps ih =>
    obtain ⟨tag, val⟩ := p
    have htag : tag ≠ DateTimeTagId := hpre (tag, val) (List.mem_cons_self _ _)
    simp only [List.cons_append, findDateTime, if_neg htag]
    exact ih (fun q hq => hpre q (List.mem_cons_of_mem _ hq))

/-! ### Theorems for C2 and C4 -/

/-- C2: for every image file whose EXIF metadata contains a DateTime field
formatted as `YYYY:MM:DD HH:MM:SS` (a valid calendar date/time, four-digit
year), EXIF date extraction returns the canonical date string `YYYY-MM-DD`
(time component truncated) and prints no warning. -/
theorem exif_datetime_extraction_canonical
    (pre post : List (Nat × String)) (y m d h mi s : Nat)
    (_hy : 1000 ≤ y) (hv : datetimeValid y m d h mi s = true)
    (hpre : ∀ p ∈ pre, p.1 ≠ DateTimeTagId) :
    get_exif_datetime
      (.exif (pre ++ (DateTimeTagId, formatExifDateTime y m d h mi s) :: post)) =
      ⟨some (strftime_Ymd y m d), false⟩ := by
  have hb := hv
  simp only [datetimeValid, Bool.and_eq_true, decide_eq_true_eq] at hb
  obtain ⟨⟨⟨⟨⟨⟨⟨⟨-, hy9⟩, -⟩, hm12⟩, -⟩, hdm⟩, hh23⟩, hmi59⟩, hs59⟩ := hb
  have hd31 : d ≤ 31 := le_trans hdm (by unfold daysInMonth; split <;> split <;> omega)
  have hrep := pyReplaceColon_two (pad4 y) (pad2 m)
    (pad2 d ++ (' ' :: (pad2 h ++ (':' :: (pad2 mi ++ (':' :: pad2 s))))))
    (fun c hc => (pad4_digits y c hc).2) (fun c hc => (pad2_digits m c hc).2)
  have hparse := strptime_format y m d h mi s hy9 (by omega) (by omega)
    (by omega) (by omega) (by omega) hv
  simp only [get_exif_datetime, findDateTime_first pre post _ hpre,
    formatExifDateTime, data_mk, hrep, hparse]

/-- Witness for C2: the spec's concrete example — DateTime value
`2023:05:17 10:30:00` yields `2023-05-17`. -/
theorem exif_datetime_extraction_canonical_witness :
    get_exif_datetime (.exif [(DateTimeTagId, "2023:05:17 10:30:00")]) =
      ⟨some "2023-05-17", false⟩ := by
  have h := exif_datetime_extraction_canonical [] [] 2023 5 17 10 30 0
    (by decide) (by decide) (by simp)
  have e1 : formatExifDateTime 2023 5 17 10 30 0 = "2023:05:17 10:30:00" := by decide
  have e2 : strftime_Ymd 2023 5 17 = "2023-05-17" := by decide
  rw [e1, e2] at h
  simpa using h

/-- C4 counterexample: missing metadata is one of the claimed failure
modes, but on an image whose EXIF dict is absent the function returns
`None` WITHOUT printing a warning (the `try` block raises nothing there):
the claim that a warning is emitted in every failure case is false. -/
theorem exif_missing_metadata_no_warning :
    (get_exif_datetime .noExif).result = none ∧
    ¬ (get_exif_datetime .noExif).warned = true := by
  exact ⟨rfl, by decide⟩

/-- C4 amended: every failure mode of EXIF date extraction returns no value
(the caller receives `None`), and a warning is printed exactly in the
failure modes that raise an exception — an unreadable file, or a DateTime
value on which `strptime` fails — while a readable file with missing
metadata or no DateTime tag yields `None` silently. -/
theorem exif_failure_modes_return_none :
    (get_exif_datetime .unreadable = ⟨none, true⟩) ∧
    (get_exif_datetime .noExif = ⟨none, false⟩) ∧
    (∀ es, findDateTime es = none → get_exif_datetime (.exif es) = ⟨none, false⟩) ∧
    (∀ es v, findDateTime es = some v →
      strptime_YmdHMS (pyReplaceColon v.data 2) = none →
      get_exif_datetime (.exif es) = ⟨none, true⟩) := by
  refine ⟨rfl, rfl, ?_, ?_⟩
  · intro es hfind
    simp [get_exif_datetime, hfind]
  · intro es v hfind hbad
    simp [get_exif_datetime, hfind, hbad]

/-- Witness for C4 amended: a DateTime entry holding `not a date` makes
`strptime` fail, so extraction warns and returns `None`. -/
theorem exif_failure_modes_return_none_witness :
    get_exif_datetime (.exif [(DateTimeTagId, "not a date")]) = ⟨none, true⟩ :=
  exif_failure_modes_return_none.2.2.2 [(DateTimeTagId, "not a date")]
    "not a date" (by decide) (by decide)


/-! ### Lemmas about suffix matching and `splitext` -/

lemma matchSuffix_append (suffix stem : List Char) :
    matchSuffix suffix (stem ++ suffix) = true := by
  unfold matchSuffix
  rw [show (stem ++ suffix).length - suffix.length = stem.length from by
    simp [List.length_append]]
  rw [List.drop_left]
  simp [List.length_append]

lemma matchSuffix_decomp (suffix l : List Char) (h : matchSuffix suffix l = true) :
    ∃ stem, l = stem ++ suffix := by
  unfold matchSuffix at h
  rw [Bool.and_eq_true] at h
  obtain ⟨-, hdrop⟩ := h
  have hdrop2 : l.drop (l.length - suffix.length) = suffix := eq_of_beq hdrop
  refine ⟨l.take (l.length - suffix.length), ?_⟩
  conv_lhs => rw [← List.take_append_drop (l.length - suffix.length) l]
  rw [hdrop2]

lemma splitAtLastDot_nondot (pre rest : List Char) (h : ∀ c ∈ pre, c ≠ '.') :
    splitAtLastDot (pre ++ '.' :: rest) = some (pre ++ ['.'], rest) := by
  induction pre with
  | nil => simp [splitAtLastDot]
  | cons c cs ih =>
    have hc : c ≠ '.' := h c (List.mem_cons_self c cs)
    simp only [List.cons_append, splitAtLastDot, if_neg hc, List.append_eq]
    rw [ih (fun x hx => h x (List.mem_cons_of_mem c hx))]
    rfl

lemma splitext_append (stem sfxTail : List Char)
    (hstem : ∃ c ∈ stem, c ≠ '.') (htail : ∀ c ∈ sfxTail, c ≠ '.') :
    splitext (String.mk (stem ++ '.' :: sfxTail)) =
      (String.mk stem, String.mk ('.' :: sfxTail)) := by
  unfold splitext
  rw [data_mk]
  rw [show (stem ++ '.' :: sfxTail).reverse = sfxTail.reverse ++ '.' :: stem.reverse from by
    simp [List.reverse_append]]
  rw [splitAtLastDot_nondot _ _ (fun c hc => htail c (List.mem_reverse.mp hc))]
  obtain ⟨c0, hc0mem, hc0⟩ := hstem
  have hall : (stem.reverse.all fun c => decide (c = '.')) = false := by
    rw [List.all_eq_false]
    exact ⟨c0, List.mem_reverse.mpr hc0mem, by simp [hc0]⟩
  simp [hall, List.reverse_append]

lemma image_extensions_shape (suffix : String) (h : suffix ∈ image_extensions) :
    ∃ tail : List Char, suffix.data = '.' :: tail ∧ ∀ c ∈ tail, c ≠ '.' := by
  fin_cases h
  · exact ⟨['j', 'p', 'g'], by decide, by decide⟩
  · exact ⟨['j', 'p', 'e', 'g'], by decide, by decide⟩
  · exact ⟨['p', 'n', 'g'], by decide, by decide⟩
  · exact ⟨['b', 'm', 'p'], by decide, by decide⟩
  · exact ⟨['t', 'i', 'f', 'f'], by decide, by decide⟩
  · exact ⟨['w', 'e', 'b', 'p'], by decide, by decide⟩

lemma output_filename_append (stem sfxTail : List Char)
    (hstem : ∃ c ∈ stem, c ≠ '.') (htail : ∀ c ∈ sfxTail, c ≠ '.') :
    output_filename (String.mk (stem ++ '.' :: sfxTail)) =
      String.mk stem ++ "_watermarked" ++ String.mk ('.' :: sfxTail) := by
  unfold output_filename
  rw [splitext_append stem sfxTail hstem htail]

lemma process_directory_jobs (input_dir : String) (listing : List DirEntry)
    (world : String → ImageFile) (renv : String → RenderEnv)
    (font_size : Int) (color position : String) :
    (process_directory input_dir listing world renv font_size color position).jobs =
      image_extensions.flatMap (fun ext =>
        (listing.filter (globMatch ext)).map (fun e =>
          ⟨pathJoin input_dir e.name,
           pathJoin (pathJoin input_dir (basename input_dir ++ "_watermark"))
             (output_filename e.name),
           add_watermark (world (pathJoin input_dir e.name))
             (renv (pathJoin input_dir e.name)) font_size color position⟩)) := rfl


/-! ## Theorems for C3, C5, C6, C7, C8, C9 -/

/-- C5: every matching input file `<input_dir>/<name><ext>` is processed
with destination exactly
`<input_dir>/<basename(input_dir)>_watermark/<name>_watermarked<ext>`;
the output directory created is exactly
`<input_dir>/<basename(input_dir)>_watermark` (made before enumeration,
`exist_ok=True`); and every job's destination lies in that directory under
a `<name>_watermarked<ext>` filename, so no unrelated file is touched. -/
theorem batch_output_path_formula (input_dir : String) (listing : List DirEntry)
    (world : String → ImageFile) (renv : String → RenderEnv)
    (font_size : Int) (color position : String)
    (e : DirEntry) (stem suffix : String)
    (he : e ∈ listing) (hdir : e.isDir = false)
    (hname : e.name = stem ++ suffix)
    (hne : stem.data ≠ []) (hhead : stem.data.head? ≠ some '.')
    (hsuffix : suffix ∈ image_extensions) :
    (process_directory input_dir listing world renv
      font_size color position).output_dir =
      pathJoin input_dir (basename input_dir ++ "_watermark") ∧
    (∃ j ∈ (process_directory input_dir listing world renv
        font_size color position).jobs,
      j.src = pathJoin input_dir e.name ∧
      j.dst = pathJoin (pathJoin input_dir (basename input_dir ++ "_watermark"))
        (stem ++ "_watermarked" ++ suffix)) ∧
    (∀ j ∈ (process_directory input_dir listing world renv
        font_size color position).jobs,
      ∃ n x, x ∈ image_extensions ∧
        j.dst = pathJoin (pathJoin input_dir (basename input_dir ++ "_watermark"))
          (n ++ "_watermarked" ++ x)) := by
  obtain ⟨tail, hsd, htail⟩ := image_extensions_shape suffix hsuffix
  have hdata : e.name.data = stem.data ++ suffix.data := by
    rw [hname, String.data_append]
  obtain ⟨c0, t0, hstem0⟩ : ∃ c t, stem.data = c :: t := by
    cases hsd2 : stem.data with
    | nil => exact absurd hsd2 hne
    | cons c t => exact ⟨c, t, rfl⟩
  have hc0 : c0 ≠ '.' := by
    intro hcontra
    apply hhead
    rw [hstem0, hcontra]
    rfl
  have hh1 : e.name.data.head? = some c0 := by rw [hdata, hstem0]; rfl
  have hh2 : matchSuffix suffix.data e.name.data = true := by
    rw [hdata]; exact matchSuffix_append _ _
  have hg : globMatch suffix e = true := by
    simp [globMatch, hdir, hh1, hh2, hc0]
  have hen : e.name = String.mk (stem.data ++ '.' :: tail) :=
    String.ext (by rw [data_mk, hdata, hsd])
  have hstemx : ∃ c ∈ stem.data, c ≠ '.' :=
    ⟨c0, by rw [hstem0]; exact List.mem_cons_self c0 t0, hc0⟩
  refine ⟨rfl, ?_, ?_⟩
  · rw [process_directory_jobs]
    refine ⟨_, List.mem_flatMap.mpr ⟨suffix, hsuffix,
      List.mem_map.mpr ⟨e, List.mem_filter.mpr ⟨he, hg⟩, rfl⟩⟩, rfl, ?_⟩
    show pathJoin _ (output_filename e.name) = _
    rw [hen, output_filename_append stem.data tail hstemx htail, ← hsd]
  · intro j hj
    rw [process_directory_jobs, List.mem_flatMap] at hj
    obtain ⟨ext, hext, hj2⟩ := hj
    rw [List.mem_map] at hj2
    obtain ⟨e2, he2, rfl⟩ := hj2
    rw [List.mem_filter] at he2
    obtain ⟨-, hg2⟩ := he2
    unfold globMatch at hg2
    rw [Bool.and_eq_true, Bool.and_eq_true] at hg2
    obtain ⟨⟨-, hhead2⟩, hms⟩ := hg2
    rw [decide_eq_true_eq] at hhead2
    obtain ⟨stem2, hdecomp⟩ := matchSuffix_decomp _ _ hms
    obtain ⟨tail2, hextd, htail2⟩ := image_extensions_shape ext hext
    have hs2 : ∃ c ∈ stem2, c ≠ '.' := by
      cases stem2 with
      | nil => exact absurd (by rw [hdecomp]; simp [hextd]) hhead2
      | cons c t =>
        refine ⟨c, List.mem_cons_self c t, ?_⟩
        intro hc
        exact hhead2 (by rw [hdecomp]; subst hc; rfl)
    have hen2 : e2.name = String.mk (stem2 ++ '.' :: tail2) :=
      String.ext (by rw [data_mk, hdecomp, hextd])
    refine ⟨String.mk stem2, ext, hext, ?_⟩
    show pathJoin _ (output_filename e2.name) = _
    rw [hen2, output_filename_append stem2 tail2 hs2 htail2, ← hextd]

/-- Witness for C5: in the demo directory, `a.jpg` is written to
`/photos/photos_watermark/a_watermarked.jpg`. -/
theorem batch_output_path_formula_witness :
    ∃ j ∈ (process_directory "/photos" demoListing3 demoWorld demoEnv
      36 "white" "bottom-right").jobs,
      j.src = pathJoin "/photos" "a.jpg" ∧
      j.dst = pathJoin (pathJoin "/photos" (basename "/photos" ++ "_watermark"))
        ("a" ++ "_watermarked" ++ ".jpg") := by
  have he : (⟨"a.jpg", false⟩ : DirEntry) ∈ demoListing3 := by decide
  have hname : (⟨"a.jpg", false⟩ : DirEntry).name = "a" ++ ".jpg" := by decide
  have hne : ("a" : String).data ≠ [] := by decide
  have hhead : ("a" : String).data.head? ≠ some '.' := by decide
  have hsuffix : (".jpg" : String) ∈ image_extensions := by decide
  exact (batch_output_path_formula "/photos" demoListing3 demoWorld demoEnv
    36 "white" "bottom-right" (⟨"a.jpg", false⟩ : DirEntry) "a" ".jpg"
    he rfl hname hne hhead hsuffix).2.1

/-! ## Theorems for C3, C6, C7, C8, C9 -/

/-- C3: for every image with no usable EXIF timestamp (extraction yields
no value), the watermark renderer uses the literal fallback text `No-Date`
as the watermark string, and no error reaches its caller: the outcome is
either a saved image watermarked `No-Date` or a caught-and-logged
failure. -/
theorem watermark_fallback_no_date (img : ImageFile) (env : RenderEnv)
    (font_size : Int) (color position : String)
    (h : (get_exif_datetime img.exif).result = none) :
    (∃ xy, add_watermark img env font_size color position =
      .saved "No-Date" xy) ∨
    add_watermark img env font_size color position = .failed := by
  have ht : watermarkText (get_exif_datetime img.exif).result = "No-Date" := by
    rw [h]
    rfl
  unfold add_watermark add_watermark_body
  rw [ht]
  cases hr : img.readable
  · right; rfl
  · cases hs : env.saveOk
    · right; simp [hr, hs]
    · left
      exact ⟨(get_position_coordinates img.width img.height
          (env.textSize "No-Date" font_size).1 (env.textSize "No-Date" font_size).2
          position), by simp [hr, hs]⟩

/-- Witness for C3: a readable image with no EXIF dict is saved with the
`No-Date` watermark. -/
theorem watermark_fallback_no_date_witness :
    (∃ xy, add_watermark ⟨.noExif, true, 800, 600⟩ ⟨fun _ _ => (100, 20), true⟩
      36 "white" "bottom-right" = .saved "No-Date" xy) ∨
    add_watermark ⟨.noExif, true, 800, 600⟩ ⟨fun _ _ => (100, 20), true⟩
      36 "white" "bottom-right" = .failed :=
  watermark_fallback_no_date ⟨.noExif, true, 800, 600⟩ ⟨fun _ _ => (100, 20), true⟩
    36 "white" "bottom-right" rfl


/-- C6: on a directory with exactly 3 qualifying image files and 2
non-image files the batch driver attempts and writes exactly 3 outputs and
reports a count of 3; on a directory with zero qualifying files it prints
the no-image-files message, creates the (empty) output directory, and
writes nothing. -/
theorem batch_counts_three_and_zero :
    (process_directory "/photos" demoListing3 demoWorld demoEnv
      36 "white" "bottom-right").processed_count = 3 ∧
    (writtenFiles (process_directory "/photos" demoListing3 demoWorld demoEnv
      36 "white" "bottom-right")).length = 3 ∧
    (process_directory "/photos" demoListing3 demoWorld demoEnv
      36 "white" "bottom-right").message =
      "\nProcessed 3 images. Output saved to: /photos/photos_watermark" ∧
    (process_directory "/photos" demoListing0 demoWorld demoEnv
      36 "white" "bottom-right").message =
      "No image files found in the specified directory." ∧
    writtenFiles (process_directory "/photos" demoListing0 demoWorld demoEnv
      36 "white" "bottom-right") = [] ∧
    (process_directory "/photos" demoListing0 demoWorld demoEnv
      36 "white" "bottom-right").output_dir = "/photos/photos_watermark" := by
  refine ⟨by decide, by decide, by decide, by decide, by decide, by decide⟩

/-- C7: when the positional input directory does not exist, `main` prints
the error line and exits with status 1 — a non-zero status — without ever
reaching `process_directory`: the `exited` result carries no batch run, so
no output directory is created and no file is read or written. -/
theorem main_missing_dir_exits_nonzero (input_dir : String)
    (listing : List DirEntry) (world : String → ImageFile)
    (renv : String → RenderEnv) (font_size : Int) (color position : String) :
    main input_dir false listing world renv font_size color position =
      .exited 1 ("Error: Directory \x27" ++ input_dir ++ "\x27 does not exist.") ∧
    (1 : Nat) ≠ 0 := by
  exact ⟨rfl, by decide⟩

/-- C8: re-running the batch driver on the same input directory with the
same configuration is idempotent.  The only change the first run makes to
the input directory's top-level listing is the output subdirectory entry;
since glob enumeration is non-recursive and `os.path.isfile` rejects
directories, a listing extended by any directory entry yields the very
same batch result — the same enumerated inputs, the same destination
names (overwritten in place), the same count and message, and no
additional or incrementally renamed files. -/
theorem rerun_idempotent (input_dir : String) (listing : List DirEntry)
    (world : String → ImageFile) (renv : String → RenderEnv)
    (font_size : Int) (color position : String)
    (d : DirEntry) (hd : d.isDir = true) :
    process_directory input_dir (listing ++ [d]) world renv
      font_size color position =
    process_directory input_dir listing world renv font_size color position := by
  have hfilter : ∀ ext : String,
      (listing ++ [d]).filter (globMatch ext) = listing.filter (globMatch ext) := by
    intro ext
    rw [List.filter_append]
    simp [globMatch, hd]
  unfold process_directory
  simp only [hfilter]

/-- Witness for C8: the second run over the demo directory, now containing
the `photos_watermark` subdirectory created by the first run, produces the
identical batch result. -/
theorem rerun_idempotent_witness :
    process_directory "/photos" (demoListing3 ++ [⟨"photos_watermark", true⟩])
      demoWorld demoEnv 36 "white" "bottom-right" =
    process_directory "/photos" demoListing3 demoWorld demoEnv
      36 "white" "bottom-right" :=
  rerun_idempotent "/photos" demoListing3 demoWorld demoEnv
    36 "white" "bottom-right" ⟨"photos_watermark", true⟩ rfl



/-- C9: the reported count increments for every enumerated matching file
regardless of whether its watermarking succeeded — `processed_count`
always equals the number of jobs attempted — and in a concrete run where
one of two matching files fails (its error caught and logged inside the
renderer), the count is still 2 while only 1 output file is actually
produced. -/
theorem count_attempts_not_successes :
    (∀ (input_dir : String) (listing : List DirEntry)
      (world : String → ImageFile) (renv : String → RenderEnv)
      (font_size : Int) (color position : String),
      (process_directory input_dir listing world renv
        font_size color position).processed_count =
      (process_directory input_dir listing world renv
        font_size color position).jobs.length) ∧
    (process_directory "/photos" demoListing2 demoWorldOneBad demoEnv
      36 "white" "bottom-right").processed_count = 2 ∧
    (writtenFiles (process_directory "/photos" demoListing2 demoWorldOneBad demoEnv
      36 "white" "bottom-right")).length = 1 := by
  refine ⟨fun _ _ _ _ _ _ _ => rfl, by decide, by decide⟩


end WatermarkTool
